import Mathlib

/-!
Verification development for the go-rtpengine client library.

The Go sources are shallowly embedded: the typed parameter model, the wire
codec (cookie framing + bencoded dictionary) and the command/response exchange
become executable Lean definitions, and the behavioural claims about them are
settled as theorems.  The two bencode libraries used by the Go code
(anacrolix/torrent/bencode for marshalling, stefanovazzocell/bencode for
parsing) are external dependencies of the repository; they are modelled here by
a standard bencode renderer and parser over the same value domain.
-/

namespace Rtpengine

/-! ## String-backed enumerated domains (variables.go)

All of these are Go `type X string` declarations; they are string
abbreviations here, with the constants the claims need. -/

abbrev TransportProtocol := String
abbrev TipoComandos := String
abbrev CryptoSuite := String
abbrev ParamReplace := String
abbrev ParamFlags := String
abbrev ParamRTCPMux := String
abbrev Codecs := String
abbrev AddressFamily := String
abbrev DtlsSetting := String
abbrev DTLSFingerprintSetting := String
abbrev SDES := String
abbrev OSRTP := String
abbrev ConnectionSetting := String
abbrev RecordSetting := String
abbrev IceSetting := String

def Offer : TipoComandos := "offer"

def Answer : TipoComandos := "answer"

def Delete : TipoComandos := "delete"

def Ping : TipoComandos := "ping"

def AddressFamilyIP4 : AddressFamily := "IP4"

def AddressFamilyIP6 : AddressFamily := "IP6"

/-! ## Response structures (rtpengine.go) -/

/-- Mirrors `ValuesRTP`: packet/byte/error counters. -/
structure ValuesRTP where
  Packets : Int := 0
  Bytes : Int := 0
  Errors : Int := 0
  deriving Repr, DecidableEq

/-- Mirrors `TotalRTP`: RTP and RTCP statistics (json tags "RTP" and "RCTP"). -/
structure TotalRTP where
  Rtp : ValuesRTP := {}
  Rtcp : ValuesRTP := {}
  deriving Repr, DecidableEq

/-! ## Bencode value domain

Models the dictionaries exchanged on the wire.  Strings/keys are Lean
`String`s (byte strings of the protocol; all inputs in this development are
ASCII, where Go byte length and Lean char length agree). -/

inductive BValue where
  | str (s : String)
  | int (n : Int)
  | lst (xs : List BValue)
  | dict (kvs : List (String × BValue))
  deriving Repr

/-- Mirrors `ResponseRtp` (rtpengine.go).  The Go `interface{}` fields SSRC and
Tags hold the raw decoded bencode value, modelled as `Option BValue`. -/
structure ResponseRtp where
  Result : String := ""
  Sdp : String := ""
  ErrorReason : String := ""
  Warning : String := ""
  Created : Int := 0
  CreatedUs : Int := 0
  LastSignal : Int := 0
  LastRedisUpdate : Int := 0
  SSRC : Option BValue := none
  Tags : Option BValue := none
  FromTag : String := ""
  FromTags : List String := []
  ToTag : String := ""
  Totals : TotalRTP := {}
  deriving Repr

/-! ## Request parameter aggregates (rtpengine.go) -/

/-- Mirrors `ParamsSdpAttrCommands`: add/remove/substitute attribute lists. -/
structure ParamsSdpAttrCommands where
  Add : List String := []
  Remove : List String := []
  Substitute : List (List String) := []
  deriving Repr, DecidableEq

/-- Mirrors `ParamsSdpAttrSections`; the Go fields are nullable pointers,
modelled as `Option`. -/
structure ParamsSdpAttrSections where
  Global : Option ParamsSdpAttrCommands := none
  Audio : Option ParamsSdpAttrCommands := none
  Video : Option ParamsSdpAttrCommands := none
  None : Option ParamsSdpAttrCommands := none
  deriving Repr, DecidableEq

/-- Mirrors `ParamMoh` (music-on-hold entry). -/
structure ParamMoh where
  File : String := ""
  Blob : String := ""
  DbId : String := ""
  Mode : String := ""
  Connection : ConnectionSetting := ""
  deriving Repr, DecidableEq

/-- Mirrors `ParamsOptString`: the string-valued option aggregate.  Field order
matches the Go struct (it is the bencode marshalling order). -/
structure ParamsOptString where
  FromTag : String := ""
  ToTag : String := ""
  CallId : String := ""
  TransportProtocol : TransportProtocol := ""
  MediaAddress : String := ""
  ICE : IceSetting := ""
  AddressFamily : AddressFamily := ""
  DTLS : DtlsSetting := ""
  ViaBranch : String := ""
  XmlrpcCallback : String := ""
  Metadata : String := ""
  File : String := ""
  Code : String := ""
  DTLSFingerprint : DTLSFingerprintSetting := ""
  ICELite : String := ""
  MediaEcho : String := ""
  Label : String := ""
  SetLabel : String := ""
  FromLabel : String := ""
  ToLabel : String := ""
  DTMFSecurity : String := ""
  Digit : String := ""
  DTMFSecurityTrigger : String := ""
  DTMFSecurityTriggerEnd : String := ""
  Trigger : String := ""
  TriggerEnd : String := ""
  All : String := ""
  Frequency : String := ""
  Blob : String := ""
  Sdp : String := ""
  AudioPlayer : String := ""
  DTMFLogDest : String := ""
  OutputDestination : String := ""
  VscStartRec : String := ""
  VscStopRec : String := ""
  VscPauseRec : String := ""
  VscStartStopRec : String := ""
  VscPauseResumeRec : String := ""
  VscStartPauseResumeRec : String := ""
  RtppFlags : String := ""
  SdpAttr : Option ParamsSdpAttrSections := none
  Template : String := ""
  RecordCall : RecordSetting := ""
  deriving Repr, DecidableEq

/-- Mirrors `ParamsOptInt`: the integer-valued option aggregate. -/
structure ParamsOptInt where
  TOS : Int := 0
  DeleteDelay : Int := 0
  DelayBuffer : Int := 0
  Volume : Int := 0
  TriggerEndTime : Int := 0
  TriggerEndDigits : Int := 0
  DTMFDelay : Int := 0
  Ptime : Int := 0
  PtimeReverse : Int := 0
  DbId : Int := 0
  Duration : Int := 0
  RepeatTimes : Int := 0
  RepeatDuration : Int := 0
  StartPos : Int := 0
  deriving Repr, DecidableEq

/-- Mirrors `ParamsOptStringArray`: the list-valued option aggregate. -/
structure ParamsOptStringArray where
  Flags : List ParamFlags := []
  RtcpMux : List ParamRTCPMux := []
  SDES : List SDES := []
  Supports : List String := []
  T38 : List String := []
  OSRTP : List OSRTP := []
  ReceivedFrom : List String := []
  FromTags : List String := []
  Frequencies : List String := []
  Replace : List ParamReplace := []
  Moh : List ParamMoh := []
  deriving Repr, DecidableEq

/-- Mirrors `RequestRtp`: the command plus the three embedded parameter
aggregates.  The Go struct embeds them as nullable pointers, modelled as
`Option`; the request builders always populate all three. -/
structure RequestRtp where
  Command : String
  paramsOptString : Option ParamsOptString := none
  paramsOptInt : Option ParamsOptInt := none
  paramsOptStringArray : Option ParamsOptStringArray := none
  deriving Repr

/-! ## Bencode rendering

Standard bencode: `<len>:<bytes>` for strings, `i<n>e` for integers,
`l...e` for lists, `d...e` for dictionaries. -/

/-- The decimal digit characters of a natural number, big-endian. -/
def natToChars (n : Nat) : List Char :=
  (if n = 0 then [0] else (Nat.digits 10 n).reverse).map Nat.digitChar

/-- The decimal rendering of an integer, with a leading minus sign when
negative. -/
def intToChars (n : Int) : List Char :=
  if n < 0 then '-' :: natToChars n.natAbs else natToChars n.toNat

/-- Renders the bencode framing of a byte string. -/
def renderStr (s : String) : List Char :=
  natToChars s.length ++ ':' :: s.data

mutual

/-- Renders a bencode value. -/
def render : BValue → List Char
  | .str s => renderStr s
  | .int n => 'i' :: intToChars n ++ ['e']
  | .lst xs => 'l' :: renderItems xs ++ ['e']
  | .dict kvs => 'd' :: renderPairs kvs ++ ['e']

/-- Renders the items of a bencode list, concatenated. -/
def renderItems : List BValue → List Char
  | [] => []
  | v :: vs => render v ++ renderItems vs

/-- Renders the key/value pairs of a bencode dictionary, concatenated. -/
def renderPairs : List (String × BValue) → List Char
  | [] => []
  | (k, v) :: kvs => renderStr k ++ render v ++ renderPairs kvs

end

/-! ## Bencode parsing

A fueled recursive-descent parser over the character list; the fuel only
bounds the nesting of lists and dictionaries. -/

/-- The numeric value of a decimal digit character, if it is one. -/
def charDigit (c : Char) : Option Nat :=
  if '0' ≤ c ∧ c ≤ '9' then some (c.toNat - '0'.toNat) else none

/-- Consumes the maximal run of decimal digits, accumulating their value. -/
def parseDigitsGo (acc : Nat) : List Char → Nat × List Char
  | [] => (acc, [])
  | c :: cs =>
    match charDigit c with
    | some d => parseDigitsGo (acc * 10 + d) cs
    | none => (acc, c :: cs)

/-- Parses a nonempty run of decimal digits as a natural number. -/
def parseDigits : List Char → Option (Nat × List Char)
  | [] => none
  | c :: cs =>
    match charDigit c with
    | some d => some (parseDigitsGo d cs)
    | none => none

/-- Parses a bencode byte string `<len>:<bytes>`. -/
def parseStr (cs : List Char) : Option (String × List Char) :=
  match parseDigits cs with
  | some (n, ':' :: rest) =>
    if n ≤ rest.length then some (String.mk (rest.take n), rest.drop n) else none
  | _ => none

/-- Parses the body of a bencode integer (after the `i`), up to its `e`. -/
def parseIntBody : List Char → Option (Int × List Char)
  | '-' :: cs =>
    match parseDigits cs with
    | some (n, 'e' :: rest) => some (-(n : Int), rest)
    | _ => none
  | cs =>
    match parseDigits cs with
    | some (n, 'e' :: rest) => some ((n : Int), rest)
    | _ => none

mutual

/-- Parses one bencode value. -/
def parseB : Nat → List Char → Option (BValue × List Char)
  | 0, _ => none
  | _ + 1, [] => none
  | fuel + 1, c :: cs =>
    if c = 'i' then
      (parseIntBody cs).map (fun p => (.int p.1, p.2))
    else if c = 'l' then
      (parseItems fuel cs).map (fun p => (.lst p.1, p.2))
    else if c = 'd' then
      (parsePairs fuel cs).map (fun p => (.dict p.1, p.2))
    else
      (parseStr (c :: cs)).map (fun p => (.str p.1, p.2))

/-- Parses bencode list items up to the closing `e`. -/
def parseItems : Nat → List Char → Option (List BValue × List Char)
  | 0, _ => none
  | _ + 1, 'e' :: rest => some ([], rest)
  | fuel + 1, cs =>
    match parseB fuel cs with
    | some (v, rest) =>
      match parseItems fuel rest with
      | some (vs, rest') => some (v :: vs, rest')
      | none => none
    | none => none

/-- Parses bencode dictionary pairs up to the closing `e`. -/
def parsePairs : Nat → List Char → Option (List (String × BValue) × List Char)
  | 0, _ => none
  | _ + 1, 'e' :: rest => some ([], rest)
  | fuel + 1, cs =>
    match parseStr cs with
    | some (k, rest) =>
      match parseB fuel rest with
      | some (v, rest') =>
        match parsePairs fuel rest' with
        | some (kvs, rest'') => some ((k, v) :: kvs, rest'')
        | none => none
      | none => none
    | none => none

end

/-- Models the external parser's `AsDict` entry point: parse one bencode value
and require it to be a dictionary.  Trailing bytes after the value (such as
the zero padding of the Go read buffer) are ignored. -/
def AsDict (cs : List Char) : Option (List (String × BValue)) :=
  match parseB (cs.length + 1) cs with
  | some (.dict kvs, _) => some kvs
  | _ => none

/-! ## Wire-dictionary view of a request

Models `bencode.Marshal` applied to `RequestRtp`: every field carries a
bencode tag with `omitempty` (except `command`), so zero-valued strings,
integers, empty slices and nil pointers are omitted; the embedded aggregates
are flattened into one dictionary.  Fields are emitted in Go struct order. -/

/-- One string field with `omitempty`: omitted when empty. -/
def strField (k : String) (v : String) : List (String × BValue) :=
  if v = "" then [] else [(k, .str v)]

/-- One integer field with `omitempty`: omitted when zero. -/
def intField (k : String) (n : Int) : List (String × BValue) :=
  if n = 0 then [] else [(k, .int n)]

/-- One string-list field with `omitempty`: omitted when empty. -/
def strListField (k : String) (vs : List String) : List (String × BValue) :=
  if vs = [] then [] else [(k, .lst (vs.map (fun s => .str s)))]

/-- One list-of-string-lists field with `omitempty` (the `substitute`
commands). -/
def strListListField (k : String) (vs : List (List String)) : List (String × BValue) :=
  if vs = [] then [] else [(k, .lst (vs.map (fun l => .lst (l.map (fun s => .str s)))))]

/-- The wire dictionary of one `ParamsSdpAttrCommands` value. -/
def sdpAttrCommandsDict (c : ParamsSdpAttrCommands) : List (String × BValue) :=
  strListField "add" c.Add ++ strListField "remove" c.Remove ++
    strListListField "substitute" c.Substitute

/-- One nullable `ParamsSdpAttrCommands` field: omitted when nil. -/
def sdpAttrCommandsField (k : String) (o : Option ParamsSdpAttrCommands) :
    List (String × BValue) :=
  match o with
  | none => []
  | some c => [(k, .dict (sdpAttrCommandsDict c))]

/-- The wire dictionary of one `ParamsSdpAttrSections` value. -/
def sdpAttrSectionsDict (s : ParamsSdpAttrSections) : List (String × BValue) :=
  sdpAttrCommandsField "global" s.Global ++ sdpAttrCommandsField "audio" s.Audio ++
    sdpAttrCommandsField "video" s.Video ++ sdpAttrCommandsField "none" s.None

/-- The nullable `sdp-attr` field: omitted when nil. -/
def sdpAttrField (o : Option ParamsSdpAttrSections) : List (String × BValue) :=
  match o with
  | none => []
  | some s => [("sdp-attr", .dict (sdpAttrSectionsDict s))]

/-- The wire dictionary of one `ParamMoh` entry. -/
def mohDict (m : ParamMoh) : List (String × BValue) :=
  strField "file" m.File ++ strField "blob" m.Blob ++ strField "db-id" m.DbId ++
    strField "mode" m.Mode ++ strField "connection" m.Connection

/-- The `moh` list field with `omitempty`. -/
def mohField (ms : List ParamMoh) : List (String × BValue) :=
  if ms = [] then [] else [("moh", .lst (ms.map (fun m => .dict (mohDict m))))]

/-- The wire fields contributed by `ParamsOptString`, in struct order, with the
bencode tag names. -/
def paramsOptStringFields (p : ParamsOptString) : List (String × BValue) :=
  strField "from-tag" p.FromTag ++ strField "to-tag" p.ToTag ++
    strField "call-id" p.CallId ++ strField "transport-protocol" p.TransportProtocol ++
    strField "media-address" p.MediaAddress ++ strField "ICE" p.ICE ++
    strField "address-family" p.AddressFamily ++ strField "DTLS" p.DTLS ++
    strField "via-branch" p.ViaBranch ++ strField "xmlrpc-callback" p.XmlrpcCallback ++
    strField "metadata" p.Metadata ++ strField "file" p.File ++
    strField "code" p.Code ++ strField "DTLS-fingerprint" p.DTLSFingerprint ++
    strField "ICE-lite" p.ICELite ++ strField "media-echo" p.MediaEcho ++
    strField "label" p.Label ++ strField "set-label" p.SetLabel ++
    strField "from-label" p.FromLabel ++ strField "to-label" p.ToLabel ++
    strField "DTMF-security" p.DTMFSecurity ++ strField "digit" p.Digit ++
    strField "DTMF-security-trigger" p.DTMFSecurityTrigger ++
    strField "DTMF-security-trigger-end" p.DTMFSecurityTriggerEnd ++
    strField "trigger" p.Trigger ++ strField "trigger-end" p.TriggerEnd ++
    strField "all" p.All ++ strField "frequency" p.Frequency ++
    strField "blob" p.Blob ++ strField "sdp" p.Sdp ++
    strField "audio-player" p.AudioPlayer ++ strField "dtmf-log-dest" p.DTMFLogDest ++
    strField "output-destination" p.OutputDestination ++
    strField "vsc-start-rec" p.VscStartRec ++ strField "vsc-stop-rec" p.VscStopRec ++
    strField "vsc-pause-rec" p.VscPauseRec ++
    strField "vsc-start-stop-rec" p.VscStartStopRec ++
    strField "vsc-pause-resume-rec" p.VscPauseResumeRec ++
    strField "vsc-start-pause-resume-rec" p.VscStartPauseResumeRec ++
    strField "rtpp-flags" p.RtppFlags ++ sdpAttrField p.SdpAttr ++
    strField "template" p.Template ++ strField "record-call" p.RecordCall

/-- The wire fields contributed by `ParamsOptInt`, in struct order.  Note the
source's bencode tag for `StartPos` is `rstart-pos`. -/
def paramsOptIntFields (p : ParamsOptInt) : List (String × BValue) :=
  intField "TOS" p.TOS ++ intField "delete-delay" p.DeleteDelay ++
    intField "delay-buffer" p.DelayBuffer ++ intField "volume" p.Volume ++
    intField "trigger-end-time" p.TriggerEndTime ++
    intField "trigger-end-digits" p.TriggerEndDigits ++
    intField "DTMF-delay" p.DTMFDelay ++ intField "ptime" p.Ptime ++
    intField "ptime-reverse" p.PtimeReverse ++ intField "db-id" p.DbId ++
    intField "duration" p.Duration ++ intField "repeat-times" p.RepeatTimes ++
    intField "repeat-duration" p.RepeatDuration ++ intField "rstart-pos" p.StartPos

/-- The wire fields contributed by `ParamsOptStringArray`, in struct order. -/
def paramsOptStringArrayFields (p : ParamsOptStringArray) : List (String × BValue) :=
  strListField "flags" p.Flags ++ strListField "rtcp-mux" p.RtcpMux ++
    strListField "SDES" p.SDES ++ strListField "supports" p.Supports ++
    strListField "T38" p.T38 ++ strListField "OSRTP" p.OSRTP ++
    strListField "received-from" p.ReceivedFrom ++ strListField "from-tags" p.FromTags ++
    strListField "frequencies" p.Frequencies ++ strListField "replace" p.Replace ++
    mohField p.Moh

/-- The flat wire dictionary of a request: the `command` key followed by the
flattened fields of the three embedded aggregates (a nil aggregate contributes
nothing). -/
def requestToDict (r : RequestRtp) : List (String × BValue) :=
  ("command", .str r.Command) ::
    ((match r.paramsOptString with | none => [] | some p => paramsOptStringFields p) ++
      (match r.paramsOptInt with | none => [] | some p => paramsOptIntFields p) ++
      (match r.paramsOptStringArray with | none => [] | some p => paramsOptStringArrayFields p))

/-- Mirrors `EncodeComando` (rtpengine.go): bencode the request and prepend
`cookie + " "`.  Marshalling cannot fail on the modelled value domain, so the
Go error result is always nil and is not modelled. -/
def EncodeComando (cookie : String) (command : RequestRtp) : List Char :=
  let data := render (.dict (requestToDict command))
  (cookie ++ " ").data ++ data

/-! ## Decoding a response (rtpengine.go `DecodeResposta`)

The decode step maps the parsed dictionary onto `ResponseRtp` by the json tag
names (mapstructure with TagName "json"); unknown keys are ignored and missing
keys leave the zero value. -/

/-- First-match association lookup in the decoded dictionary. -/
def lookupKey (k : String) : List (String × BValue) → Option BValue
  | [] => none
  | (k', v) :: kvs => if k' = k then some v else lookupKey k kvs

/-- First-match choice on lookup results, used to state lookup laws over the
appended field segments. -/
def orOpt (a b : Option BValue) : Option BValue :=
  match a with
  | some v => some v
  | none => b

/-- A string field of the response: the dictionary value when it is a string,
the zero value otherwise. -/
def getStr (k : String) (kvs : List (String × BValue)) : String :=
  match lookupKey k kvs with
  | some (.str s) => s
  | _ => ""

/-- An integer field of the response. -/
def getInt (k : String) (kvs : List (String × BValue)) : Int :=
  match lookupKey k kvs with
  | some (.int n) => n
  | _ => 0

/-- A string-list field of the response; non-string elements decode to the
zero string. -/
def getStrList (k : String) (kvs : List (String × BValue)) : List String :=
  match lookupKey k kvs with
  | some (.lst xs) => xs.map (fun v => match v with | .str s => s | _ => "")
  | _ => []

/-- Decodes a `ValuesRTP` sub-dictionary. -/
def toValuesRTP : BValue → ValuesRTP
  | .dict kvs =>
    { Packets := getInt "packets" kvs, Bytes := getInt "bytes" kvs,
      Errors := getInt "errors" kvs }
  | _ => {}

/-- Decodes the `totals` sub-dictionary (json tags "RTP" and "RCTP"). -/
def getTotals (kvs : List (String × BValue)) : TotalRTP :=
  match lookupKey "totals" kvs with
  | some (.dict t) =>
    { Rtp := match lookupKey "RTP" t with | some v => toValuesRTP v | none => {},
      Rtcp := match lookupKey "RCTP" t with | some v => toValuesRTP v | none => {} }
  | _ => {}

/-- Maps a decoded dictionary onto `ResponseRtp` by json tag name. -/
def mapToResponse (kvs : List (String × BValue)) : ResponseRtp :=
  { Result := getStr "result" kvs
    Sdp := getStr "sdp" kvs
    ErrorReason := getStr "error-reason" kvs
    Warning := getStr "warning" kvs
    Created := getInt "created" kvs
    CreatedUs := getInt "created_us" kvs
    LastSignal := getInt "last signal" kvs
    LastRedisUpdate := getInt "last redis update" kvs
    SSRC := lookupKey "SSRC" kvs
    Tags := lookupKey "tags" kvs
    FromTag := getStr "from-tag" kvs
    FromTags := getStrList "from-tags" kvs
    ToTag := getStr "to-tag" kvs
    Totals := getTotals kvs }

/-- Models `bytes.IndexAny(resposta, " ")`: the index of the first space byte,
or -1 when there is none. -/
def indexOfSpace : List Char → Int
  | [] => -1
  | c :: cs =>
    if c = ' ' then 0
    else
      let r := indexOfSpace cs
      if r = -1 then -1 else r + 1

/-- Mirrors `DecodeResposta` (rtpengine.go): validate the cookie framing, then
the cookie bytes, then bencode-decode the remainder and map it onto the
response.  On a bencode failure the zero-valued response is returned
unchanged. -/
def DecodeResposta (cookie : String) (resposta : List Char) : ResponseRtp :=
  let cookieIndex := indexOfSpace resposta
  if cookieIndex ≠ (cookie.length : Int) then
    { Result := "error", ErrorReason := "Failed to parse the message" }
  else
    let cookieResponse := String.mk (resposta.take cookieIndex.toNat)
    if cookieResponse ≠ cookie then
      { Result := "error", ErrorReason := "Cookie mismatch" }
    else
      let encodedData := resposta.drop (cookieIndex.toNat + 1)
      match AsDict encodedData with
      | none => {}
      | some decodedDataRaw => mapToResponse decodedDataRaw

/-! ## Request builders and option functions (ng_protocol.go)

Go options mutate the request in place and return an error; they are modelled
by state passing: a `ParametrosOption` consumes a request and produces a new
request or an error. -/

/-- Mirrors `ParametrosOption`. -/
abbrev ParametrosOption := RequestRtp → Except String RequestRtp

/-- The builders' option loop: apply each option in order, aborting on the
first error (the partially built request is discarded, not rolled back). -/
def applyOptions (request : RequestRtp) : List ParametrosOption → Except String RequestRtp
  | [] => .ok request
  | o :: os =>
    match o request with
    | .error err => .error err
    | .ok r => applyOptions r os

/-- Mirrors `SDPOffering`: the "offer" command with the given string
parameters and freshly allocated (non-nil, empty) integer and list
aggregates. -/
def SDPOffering (parametros : Option ParamsOptString) (options : List ParametrosOption) :
    Except String RequestRtp :=
  applyOptions
    { Command := Offer, paramsOptString := parametros,
      paramsOptInt := some {}, paramsOptStringArray := some {} } options

/-- Mirrors `SDPAnswer`. -/
def SDPAnswer (parametros : Option ParamsOptString) (options : List ParametrosOption) :
    Except String RequestRtp :=
  applyOptions
    { Command := Answer, paramsOptString := parametros,
      paramsOptInt := some {}, paramsOptStringArray := some {} } options

/-- Mirrors `SDPDelete`. -/
def SDPDelete (parametros : Option ParamsOptString) (options : List ParametrosOption) :
    Except String RequestRtp :=
  applyOptions
    { Command := Delete, paramsOptString := parametros,
      paramsOptInt := some {}, paramsOptStringArray := some {} } options

/-- Updates the list aggregate of a request (a nil aggregate stays nil; in Go
that access would fault, and every caller in the claims has it populated). -/
def modifyArr (f : ParamsOptStringArray → ParamsOptStringArray) (s : RequestRtp) :
    RequestRtp :=
  { s with paramsOptStringArray := s.paramsOptStringArray.map f }

/-- Mirrors `SetFlags`: append the given flags to the flag list. -/
def SetFlags (flags : List ParamFlags) : ParametrosOption := fun s =>
  .ok (modifyArr (fun a => { a with Flags := a.Flags ++ flags }) s)

/-- Mirrors `SetCodecEncoder`: append one "codec-transcode-" flag per codec. -/
def SetCodecEncoder (codecs : List Codecs) : ParametrosOption := fun s =>
  let trascoder := codecs.map (fun o => ("codec-transcode-" ++ o : ParamFlags))
  .ok (modifyArr (fun a => { a with Flags := a.Flags ++ trascoder }) s)

/-- Mirrors `SetCodecMask`: append one "codec-mask-" flag per codec. -/
def SetCodecMask (codecs : List Codecs) : ParametrosOption := fun s =>
  let mask := codecs.map (fun o => ("codec-mask-" ++ o : ParamFlags))
  .ok (modifyArr (fun a => { a with Flags := a.Flags ++ mask }) s)

/-- Mirrors `SetCodecStrip`: append one "codec-strip-" flag per codec. -/
def SetCodecStrip (codecs : List Codecs) : ParametrosOption := fun s =>
  let strip := codecs.map (fun o => ("codec-strip-" ++ o : ParamFlags))
  .ok (modifyArr (fun a => { a with Flags := a.Flags ++ strip }) s)

/-- Mirrors `SetCodecExcept`: append one "codec-except-" flag per codec. -/
def SetCodecExcept (codecs : List Codecs) : ParametrosOption := fun s =>
  let except := codecs.map (fun o => ("codec-except-" ++ o : ParamFlags))
  .ok (modifyArr (fun a => { a with Flags := a.Flags ++ except }) s)

/-- Mirrors `DeleteSDES`: append one "no-" SDES token per crypto suite. -/
def DeleteSDES (cript : List CryptoSuite) : ParametrosOption := fun s =>
  let sdes := cript.map (fun o => ("no-" ++ o : SDES))
  .ok (modifyArr (fun a => { a with SDES := a.SDES ++ sdes }) s)

/-- Mirrors `EnableSDES`: append one "only-" SDES token per crypto suite. -/
def EnableSDES (cript : List CryptoSuite) : ParametrosOption := fun s =>
  let sdes := cript.map (fun o => ("only-" ++ o : SDES))
  .ok (modifyArr (fun a => { a with SDES := a.SDES ++ sdes }) s)

/-- Mirrors `SetReceivedFrom`: the received-from list becomes a fresh
two-element list holding the address family and the address. -/
def SetReceivedFrom (addressFamily : AddressFamily) (Address : String) :
    ParametrosOption := fun s =>
  let receivedFrom : List String := []
  .ok (modifyArr (fun a => { a with ReceivedFrom := receivedFrom ++ [addressFamily, Address] }) s)

/-- Mirrors `SetPtimeCodecOffer`: assign the ptime integer option. -/
def SetPtimeCodecOffer (ptime : Int) : ParametrosOption := fun s =>
  .ok ({ s with paramsOptInt := s.paramsOptInt.map (fun p => { p with Ptime := ptime }) })

/-! ## The exchange (client.go)

The connection is an external collaborator: the environment supplies the
outcome of the single write and the single read of one exchange.  The cookie
comes from the external UUID source and is likewise a parameter. -/

/-- The environment's view of one exchange: the write outcome of `ComandoNG`
and the raw-read outcome used by `RespostaNG`. -/
structure NetOutcome where
  writeErr : Option String := none
  readResult : Except String (List Char) := .error ""

/-- Mirrors `ComandoNG`: encode (cannot fail on the modelled domain) and write;
the result is the write error, if any. -/
def ComandoNG (cookie : String) (comando : RequestRtp) (net : NetOutcome) :
    Option String :=
  let _menssagem := EncodeComando cookie comando
  net.writeErr

/-- Mirrors `RespostaNG`: on a read error return the zero response paired with
the error, otherwise decode the raw bytes. -/
def RespostaNG (cookie : String) (net : NetOutcome) : ResponseRtp × Option String :=
  match net.readResult with
  | .error err => ({}, some err)
  | .ok raw => (DecodeResposta cookie raw, none)

/-- Mirrors `NewComando`: send the command, and on any write error return the
locally allocated zero response; otherwise return whatever `RespostaNG`
produced (also the zero response when the read failed). -/
def NewComando (cookie : String) (comando : RequestRtp) (net : NetOutcome) :
    ResponseRtp :=
  let resposta : ResponseRtp := {}
  match ComandoNG cookie comando net with
  | some _ => resposta
  | none =>
    match RespostaNG cookie net with
    | (resposta, some _) => resposta
    | (resposta, none) => resposta

/-! ## Concrete inputs used by witnesses and counterexamples -/

/-- A string-parameter aggregate with a few fields populated. -/
def exampleParams : ParamsOptString :=
  { FromTag := "ft1", ToTag := "tt1", Sdp := "v=0" }

/-- A list aggregate with existing entries, to observe append-vs-replace. -/
def exampleArr : ParamsOptStringArray :=
  { Flags := ["f0"], SDES := ["s0"], ReceivedFrom := ["IP4", "10.0.0.1"],
    FromTags := ["a", "b"] }

/-- A fully populated request used as a concrete exchange input. -/
def exampleReq : RequestRtp :=
  { Command := Offer, paramsOptString := some exampleParams,
    paramsOptInt := some ({ Ptime := 20 }), paramsOptStringArray := some exampleArr }

/-- An offer request whose aggregates are all empty. -/
def plainOffer : RequestRtp :=
  { Command := Offer, paramsOptString := some {}, paramsOptInt := some {},
    paramsOptStringArray := some {} }

/-- A delete request whose aggregates are all empty. -/
def plainDelete : RequestRtp :=
  { Command := Delete, paramsOptString := some {}, paramsOptInt := some {},
    paramsOptStringArray := some {} }

/-- A request whose integer aggregate explicitly sets TOS to zero. -/
def zeroTOSReq : RequestRtp :=
  { Command := Offer, paramsOptString := some {},
    paramsOptInt := some ({ TOS := 0, Ptime := 20 }), paramsOptStringArray := some {} }

/-- The wire dictionary of a request whose three aggregates are populated:
the `command` key followed by the flattened aggregate fields. -/
def fullRequestFields (cmd : String) (ps : ParamsOptString) (pint : ParamsOptInt)
    (pa : ParamsOptStringArray) : List (String × BValue) :=
  ("command", .str cmd) ::
    (paramsOptStringFields ps ++ (paramsOptIntFields pint ++ paramsOptStringArrayFields pa))

end Rtpengine

namespace Rtpengine

/-! ## Basic helper lemmas -/

/-- Splitting `applyOptions` across an append. -/
theorem applyOptions_append (l₁ l₂ : List ParametrosOption) :
    ∀ req : RequestRtp, applyOptions req (l₁ ++ l₂) =
      match applyOptions req l₁ with
      | .ok r => applyOptions r l₂
      | .error e => .error e := by
  induction l₁ with
  | nil => intro req; simp [applyOptions]
  | cons o os ih =>
    intro req
    simp only [List.cons_append, applyOptions]
    cases o req with
    | error e => simp
    | ok r => simpa using ih r

/-- The first space of `cookie ++ " " ++ rest` sits at index `cookie.length`
whenever the cookie itself is space-free. -/
theorem indexOfSpace_cookie (cs : List Char) (h : ' ' ∉ cs) (rest : List Char) :
    indexOfSpace (cs ++ ' ' :: rest) = (cs.length : Int) := by
  induction cs with
  | nil => simp [indexOfSpace]
  | cons c cs ih =>
    have hc : c ≠ ' ' := fun hc => h (by simp [hc])
    have hcs : ' ' ∉ cs := fun hm => h (List.mem_cons_of_mem _ hm)
    simp only [List.cons_append, indexOfSpace, if_neg hc, List.append_eq]
    rw [ih hcs]
    have hne : ((cs.length : Int)) ≠ -1 := by omega
    simp only [if_neg hne, List.length_cons]
    push_cast
    ring

/-- A valid frame with a matching cookie hands the payload to the bencode
parser. -/
theorem DecodeResposta_valid_frame (cookie : String) (payload : List Char)
    (h : ' ' ∉ cookie.data) :
    DecodeResposta cookie (cookie.data ++ ' ' :: payload) =
      match AsDict payload with
      | none => {}
      | some kvs => mapToResponse kvs := by
  have hlen : cookie.length = cookie.data.length := rfl
  have hidx : indexOfSpace (cookie.data ++ ' ' :: payload) = (cookie.length : Int) := by
    rw [indexOfSpace_cookie _ h, hlen]
  have htn : ((cookie.length : Int)).toNat = cookie.data.length := by
    rw [hlen]; exact Int.toNat_natCast _
  have htake : (cookie.data ++ ' ' :: payload).take cookie.data.length = cookie.data :=
    List.take_left _ _
  have hdrop : (cookie.data ++ ' ' :: payload).drop (cookie.data.length + 1) = payload := by
    rw [show cookie.data.length + 1 = (cookie.data ++ [' ']).length by simp,
      show cookie.data ++ ' ' :: payload = (cookie.data ++ [' ']) ++ payload by simp]
    exact List.drop_left _ _
  have hmk : String.mk cookie.data = cookie := rfl
  unfold DecodeResposta
  rw [hidx, if_neg (by simp), htn, htake, hmk, if_neg (by simp)]
  simp only [hdrop]

/-! ## Claim C5 -/

/-- C5: whenever the first space of the raw input does not sit at index
`len(cookie)` (including inputs with no space at all, where the index is -1),
`DecodeResposta` returns the frame-error response — result "error" with the
locally synthesized reason "Failed to parse the message" — identically for
every payload, so bencode decoding is never attempted. -/
theorem claim_C5_frame_rejection (cookie : String) (resposta : List Char)
    (h : indexOfSpace resposta ≠ (cookie.length : Int)) :
    DecodeResposta cookie resposta =
      { Result := "error", ErrorReason := "Failed to parse the message" } := by
  unfold DecodeResposta
  rw [if_pos h]

/-- C5 witness: input "abc de" with expected cookie "ab" (first space at index
3 ≠ 2) is rejected as a frame error. -/
theorem claim_C5_frame_rejection_witness :
    indexOfSpace ("abc de".data) ≠ ((("ab" : String)).length : Int) ∧
      DecodeResposta "ab" ("abc de".data) =
        { Result := "error", ErrorReason := "Failed to parse the message" } :=
  ⟨by decide, claim_C5_frame_rejection "ab" ("abc de".data) (by decide)⟩

/-! ## Claim C6 -/

/-- C6: when the first space sits exactly at index `len(cookie)` but the bytes
before it differ from the expected cookie, `DecodeResposta` returns the
cookie-mismatch response — result "error" with reason "Cookie mismatch" —
without decoding the dictionary (the payload never reaches the parser). -/
theorem claim_C6_cookie_mismatch (cookie : String) (resposta : List Char)
    (h1 : indexOfSpace resposta = (cookie.length : Int))
    (h2 : String.mk (resposta.take cookie.length) ≠ cookie) :
    DecodeResposta cookie resposta =
      { Result := "error", ErrorReason := "Cookie mismatch" } := by
  unfold DecodeResposta
  rw [h1, if_neg (by simp), Int.toNat_natCast, if_pos h2]

/-- C6 witness: expected cookie "abc", input "abd d6:result2:oke" (prefix of
matching length but different content) is rejected as a cookie mismatch. -/
theorem claim_C6_cookie_mismatch_witness :
    indexOfSpace ("abd d6:result2:oke".data) = ((("abc" : String)).length : Int) ∧
      String.mk ("abd d6:result2:oke".data.take ("abc" : String).length) ≠ "abc" ∧
      DecodeResposta "abc" ("abd d6:result2:oke".data) =
        { Result := "error", ErrorReason := "Cookie mismatch" } :=
  ⟨by decide, by decide,
    claim_C6_cookie_mismatch "abc" ("abd d6:result2:oke".data) (by decide) (by decide)⟩

/-! ## Claim C7 -/

/-- C7: each derived-flag builder generates exactly one token per input
element by prefix concatenation, preserves the input order, and appends the
tokens to the existing list without replacing it; in particular the transcode
builder applied to ["PCMA", "G729"] appends exactly
["codec-transcode-PCMA", "codec-transcode-G729"]. -/
theorem claim_C7_derived_flag_builders (s : RequestRtp) (arr : ParamsOptStringArray)
    (h : s.paramsOptStringArray = some arr) (codecs : List Codecs)
    (cript : List CryptoSuite) :
    SetCodecEncoder codecs s = .ok ({ s with
      paramsOptStringArray := some ({ arr with
        Flags := arr.Flags ++ codecs.map (fun o => "codec-transcode-" ++ o) }) }) ∧
    SetCodecMask codecs s = .ok ({ s with
      paramsOptStringArray := some ({ arr with
        Flags := arr.Flags ++ codecs.map (fun o => "codec-mask-" ++ o) }) }) ∧
    SetCodecStrip codecs s = .ok ({ s with
      paramsOptStringArray := some ({ arr with
        Flags := arr.Flags ++ codecs.map (fun o => "codec-strip-" ++ o) }) }) ∧
    SetCodecExcept codecs s = .ok ({ s with
      paramsOptStringArray := some ({ arr with
        Flags := arr.Flags ++ codecs.map (fun o => "codec-except-" ++ o) }) }) ∧
    DeleteSDES cript s = .ok ({ s with
      paramsOptStringArray := some ({ arr with
        SDES := arr.SDES ++ cript.map (fun o => "no-" ++ o) }) }) ∧
    EnableSDES cript s = .ok ({ s with
      paramsOptStringArray := some ({ arr with
        SDES := arr.SDES ++ cript.map (fun o => "only-" ++ o) }) }) ∧
    SetCodecEncoder ["PCMA", "G729"] s = .ok ({ s with
      paramsOptStringArray := some ({ arr with
        Flags := arr.Flags ++ ["codec-transcode-PCMA", "codec-transcode-G729"] }) }) := by
  refine ⟨?_, ?_, ?_, ?_, ?_, ?_, ?_⟩ <;>
    simp [SetCodecEncoder, SetCodecMask, SetCodecStrip, SetCodecExcept, DeleteSDES,
      EnableSDES, modifyArr, h]

/-- C7 witness: the transcode builder on a request whose flag list already
holds "f0" appends the two derived tokens after it. -/
theorem claim_C7_derived_flag_builders_witness :
    exampleReq.paramsOptStringArray = some exampleArr ∧
      SetCodecEncoder ["PCMA", "G729"] exampleReq = .ok ({ exampleReq with
        paramsOptStringArray := some ({ exampleArr with
          Flags := exampleArr.Flags ++
            ["codec-transcode-PCMA", "codec-transcode-G729"] }) }) :=
  ⟨rfl, (claim_C7_derived_flag_builders exampleReq exampleArr rfl [] []).2.2.2.2.2.2⟩

/-! ## Claim C8 -/

/-- C8: the request builders initialize the integer and list aggregates of the
returned request to empty non-nil values and set the command token; they apply
the option functions left to right over the accumulated request, and the first
option that errors aborts the build, surfacing exactly that error with no
request returned (the partially updated request is simply discarded — nothing
is rolled back, as the error is evaluated against the accumulated state). -/
theorem claim_C8_builders_init_and_fail_fast (parametros : Option ParamsOptString) :
    (SDPOffering parametros [] = .ok ({
      Command := Offer, paramsOptString := parametros,
      paramsOptInt := some {}, paramsOptStringArray := some {} })) ∧
    (SDPAnswer parametros [] = .ok ({
      Command := Answer, paramsOptString := parametros,
      paramsOptInt := some {}, paramsOptStringArray := some {} })) ∧
    (SDPDelete parametros [] = .ok ({
      Command := Delete, paramsOptString := parametros,
      paramsOptInt := some {}, paramsOptStringArray := some {} })) ∧
    (∀ (opts : List ParametrosOption) (r : RequestRtp),
      applyOptions {
        Command := Offer, paramsOptString := parametros,
        paramsOptInt := some {}, paramsOptStringArray := some {} } opts = .ok r →
      SDPOffering parametros opts = .ok r) ∧
    (∀ (opts₁ : List ParametrosOption) (o : ParametrosOption)
        (opts₂ : List ParametrosOption) (r : RequestRtp) (e : String),
      applyOptions {
        Command := Offer, paramsOptString := parametros,
        paramsOptInt := some {}, paramsOptStringArray := some {} } opts₁ = .ok r →
      o r = .error e →
      SDPOffering parametros (opts₁ ++ o :: opts₂) = .error e) := by
  refine ⟨rfl, rfl, rfl, fun opts r h => h, ?_⟩
  intro opts₁ o opts₂ r e h1 h2
  unfold SDPOffering
  rw [applyOptions_append, h1]
  simp [applyOptions, h2]

/-- C8 witness: with empty parameters, the offer builder returns the
initialized request on no options, and an erroring first option surfaces its
error verbatim. -/
theorem claim_C8_builders_init_and_fail_fast_witness :
    (SDPOffering (some {}) [] = .ok ({
      Command := Offer, paramsOptString := some {},
      paramsOptInt := some {}, paramsOptStringArray := some {} })) ∧
    (SDPOffering (some {}) [fun _ => .error "boom"] = .error "boom") :=
  ⟨(claim_C8_builders_init_and_fail_fast (some {})).1,
    (claim_C8_builders_init_and_fail_fast (some {})).2.2.2.2 [] (fun _ => .error "boom")
      [] _ "boom" rfl rfl⟩

/-! ## Claim C10 -/

/-- C10: applying the option returned by `SetReceivedFrom` sets the
received-from list to exactly the two-element list
[addressFamily, address], discarding whatever the list held before. -/
theorem claim_C10_received_from_replaced (s : RequestRtp) (arr : ParamsOptStringArray)
    (h : s.paramsOptStringArray = some arr) (addressFamily : AddressFamily)
    (Address : String) :
    SetReceivedFrom addressFamily Address s = .ok ({ s with
      paramsOptStringArray := some ({ arr with
        ReceivedFrom := [addressFamily, Address] }) }) := by
  simp [SetReceivedFrom, modifyArr, h]

/-! ## Claim C1 (corrected) -/

/-- C1 counterexample: with expected cookie "abc" and input
"abc xnotbencode" — valid framing and cookie, but a payload that fails to
bencode-decode — `DecodeResposta` returns a response whose Result is the empty
string, not "error", and whose ErrorReason is empty, contradicting the claim
that this path yields result "error" with a non-empty synthesized reason. -/
theorem claim_C1_counterexample :
    (DecodeResposta "abc" ("abc xnotbencode".data)).Result ≠ "error" ∧
      (DecodeResposta "abc" ("abc xnotbencode".data)).Result = "" ∧
      (DecodeResposta "abc" ("abc xnotbencode".data)).ErrorReason = "" :=
  ⟨by decide, by decide, by decide⟩

/-- C1 (amended): when the cookie framing and cookie bytes are valid but the
remainder after the separating space fails to bencode-decode as a dictionary,
`DecodeResposta` returns the zero-valued response — Result and ErrorReason
both empty — rather than an error-shaped one; it is a total function, so it
never crashes, and the caller always receives a typed value. -/
theorem claim_C1_decode_failure_zero_response (cookie : String) (payload : List Char)
    (h : ' ' ∉ cookie.data) (hfail : AsDict payload = none) :
    DecodeResposta cookie (cookie.data ++ ' ' :: payload) = ({} : ResponseRtp) := by
  rw [DecodeResposta_valid_frame cookie payload h, hfail]

/-- C1 witness: the amended statement at cookie "abc" and payload
"xnotbencode". -/
theorem claim_C1_decode_failure_zero_response_witness :
    ' ' ∉ ("abc" : String).data ∧ AsDict ("xnotbencode".data) = none ∧
      DecodeResposta "abc" (("abc" : String).data ++ ' ' :: "xnotbencode".data) =
        ({} : ResponseRtp) :=
  ⟨by decide, rfl,
    claim_C1_decode_failure_zero_response "abc" ("xnotbencode".data) (by decide) rfl⟩

/-! ## Claim C2 (corrected) -/

/-- C2 counterexample: an exchange whose read returns
"c1 d6:result5:errore" — a well-formed dictionary with result "error" and no
error-reason key — hands the caller a response with Result "error" and an
empty ErrorReason: no generic reason is synthesized, contradicting the claim
that an "error" result always carries a non-empty reason. -/
theorem claim_C2_counterexample :
    (NewComando "c1" plainOffer
        { writeErr := none, readResult := .ok ("c1 d6:result5:errore".data) }).Result =
      "error" ∧
      (NewComando "c1" plainOffer
        { writeErr := none, readResult := .ok ("c1 d6:result5:errore".data) }).ErrorReason =
      "" :=
  ⟨by decide, by decide⟩

/-- C2 (amended): for every response handed back by `NewComando` from a
successfully decoded dictionary, ErrorReason is exactly the string the
dictionary's "error-reason" key carries, and the empty string when the key is
absent — no reason is ever synthesized locally, so a result of "error" may
come with an empty ErrorReason, and a non-error result may come with a
non-empty one (presence of error-reason is independent of the result). -/
theorem claim_C2_error_reason_from_dict (cookie : String) (comando : RequestRtp)
    (payload : List Char) (kvs : List (String × BValue))
    (h : ' ' ∉ cookie.data) (hdict : AsDict payload = some kvs) :
    (NewComando cookie comando
        { writeErr := none, readResult := .ok (cookie.data ++ ' ' :: payload) }).ErrorReason =
      getStr "error-reason" kvs ∧
      (NewComando cookie comando
        { writeErr := none, readResult := .ok (cookie.data ++ ' ' :: payload) }).Result =
      getStr "result" kvs := by
  have hdec : NewComando cookie comando
      { writeErr := none, readResult := .ok (cookie.data ++ ' ' :: payload) } =
      mapToResponse kvs := by
    show (match RespostaNG cookie
        { writeErr := none, readResult := .ok (cookie.data ++ ' ' :: payload) } with
      | (resposta, some _) => resposta
      | (resposta, none) => resposta) = mapToResponse kvs
    show DecodeResposta cookie (cookie.data ++ ' ' :: payload) = mapToResponse kvs
    rw [DecodeResposta_valid_frame cookie payload h, hdict]
  rw [hdec]
  exact ⟨rfl, rfl⟩

/-- C2 witness: the amended statement at cookie "c1" and the dictionary with
result "error" and no error-reason key. -/
theorem claim_C2_error_reason_from_dict_witness :
    ' ' ∉ ("c1" : String).data ∧
      AsDict ("d6:result5:errore".data) = some [("result", .str "error")] ∧
      (NewComando "c1" plainOffer
        { writeErr := none,
          readResult := .ok (("c1" : String).data ++ ' ' :: "d6:result5:errore".data) }).ErrorReason =
      getStr "error-reason" [("result", .str "error")] :=
  ⟨by decide, rfl,
    (claim_C2_error_reason_from_dict "c1" plainOffer ("d6:result5:errore".data)
      [("result", .str "error")] (by decide) rfl).1⟩

/-! ## Claim C3 (corrected) -/

/-- C3 counterexample: when the write step fails, `NewComando` hands back the
freshly allocated zero response: its Result is empty — not "error" — and it
carries no transport error text, contradicting the claimed error-shaped
response. -/
theorem claim_C3_counterexample :
    (NewComando "c1" exampleReq
        { writeErr := some "write: broken pipe", readResult := .error "" }).Result ≠
      "error" ∧
      (NewComando "c1" exampleReq
        { writeErr := some "write: broken pipe", readResult := .error "" }).ErrorReason =
      "" :=
  ⟨by decide, by decide⟩

/-- C3 (amended): on any failure of the write step, `NewComando` returns
immediately with the non-nil zero-valued response — Result and ErrorReason
both empty — for every request and every transport error; the caller never
receives a nil/undefined response, but the response is not error-shaped and
does not carry the transport error text. -/
theorem claim_C3_write_failure_empty_response (cookie : String) (comando : RequestRtp)
    (e : String) (read : Except String (List Char)) :
    NewComando cookie comando { writeErr := some e, readResult := read } =
      ({} : ResponseRtp) := rfl

/-! ## Decimal digit round-trip lemmas -/

/-- Reading back a digit character below ten recovers the digit. -/
theorem charDigit_digitChar (d : Nat) (h : d < 10) :
    charDigit (Nat.digitChar d) = some d := by
  interval_cases d <;> decide

/-- Digit characters are none of the bencode structural characters. -/
theorem digitChar_not_reserved (d : Nat) (h : d < 10) :
    Nat.digitChar d ≠ 'i' ∧ Nat.digitChar d ≠ 'l' ∧ Nat.digitChar d ≠ 'd' ∧
      Nat.digitChar d ≠ '-' ∧ Nat.digitChar d ≠ 'e' ∧ Nat.digitChar d ≠ ':' := by
  interval_cases d <;> decide

/-- Big-endian digit folding agrees with `Nat.ofDigits` on the reversed
little-endian list. -/
theorem foldr_eq_ofDigits (l : List Nat) :
    l.foldr (fun d a => a * 10 + d) 0 = Nat.ofDigits 10 l := by
  induction l with
  | nil => simp [Nat.ofDigits_nil]
  | cons d l ih => simp [Nat.ofDigits_cons, ih]; ring

/-- `natToChars` is a nonempty digit-character rendering whose digits fold
back to the number. -/
theorem natToChars_eq_map (n : Nat) :
    ∃ ds : List Nat, natToChars n = ds.map Nat.digitChar ∧ ds ≠ [] ∧
      (∀ d ∈ ds, d < 10) ∧ ds.foldl (fun a d => a * 10 + d) 0 = n := by
  by_cases hn : n = 0
  · exact ⟨[0], by simp [natToChars, hn], by simp, by simp, by simp [hn]⟩
  · refine ⟨(Nat.digits 10 n).reverse, by simp [natToChars, hn], ?_, ?_, ?_⟩
    · simp [Nat.digits_ne_nil_iff_ne_zero.mpr hn]
    · intro d hd
      exact Nat.digits_lt_base (by norm_num) (List.mem_reverse.mp hd)
    · rw [List.foldl_reverse, foldr_eq_ofDigits, Nat.ofDigits_digits]

/-- Folding a digit run from an arbitrary accumulator. -/
theorem parseDigitsGo_spec (ds : List Nat) (hds : ∀ d ∈ ds, d < 10) (acc : Nat)
    (c : Char) (hc : charDigit c = none) (rest : List Char) :
    parseDigitsGo acc (ds.map Nat.digitChar ++ c :: rest) =
      (ds.foldl (fun a d => a * 10 + d) acc, c :: rest) := by
  induction ds generalizing acc with
  | nil => simp [parseDigitsGo, hc]
  | cons d ds ih =>
    have hd : d < 10 := hds d (by simp)
    simp only [List.map_cons, List.cons_append, parseDigitsGo,
      charDigit_digitChar d hd, List.foldl_cons]
    exact ih (fun x hx => hds x (by simp [hx])) (acc * 10 + d)

/-- Parsing the decimal rendering of `n` followed by a non-digit recovers
`n` and leaves the non-digit in place. -/
theorem parseDigits_natToChars (n : Nat) (c : Char) (hc : charDigit c = none)
    (rest : List Char) :
    parseDigits (natToChars n ++ c :: rest) = some (n, c :: rest) := by
  obtain ⟨ds, hmap, hne, hlt, hval⟩ := natToChars_eq_map n
  match ds, hne, hmap, hlt, hval with
  | d :: ds', _, hmap, hlt, hval =>
    have hd : d < 10 := hlt d (by simp)
    rw [hmap]
    simp only [List.map_cons, List.cons_append, parseDigits,
      charDigit_digitChar d hd]
    rw [parseDigitsGo_spec ds' (fun x hx => hlt x (by simp [hx])) d c hc rest]
    simp only [List.foldl_cons] at hval
    have hval' : List.foldl (fun a d => a * 10 + d) d ds' = n := by simpa using hval
    rw [hval']

/-- Parsing the bencode framing of a string recovers the string and the
remainder. -/
theorem parseStr_renderStr (s : String) (rest : List Char) :
    parseStr (renderStr s ++ rest) = some (s, rest) := by
  have hshape : renderStr s ++ rest = natToChars s.length ++ ':' :: (s.data ++ rest) := by
    simp [renderStr]
  rw [parseStr, hshape, parseDigits_natToChars s.length ':' (by decide) (s.data ++ rest)]
  have hlen : s.length = s.data.length := rfl
  have hle : s.length ≤ (s.data ++ rest).length := by
    rw [hlen]; simp
  simp only [hle, if_true]
  have htake : (s.data ++ rest).take s.length = s.data := by
    rw [hlen]; exact List.take_left _ _
  have hdrop : (s.data ++ rest).drop s.length = rest := by
    rw [hlen]; exact List.drop_left _ _
  rw [htake, hdrop]

/-- Parsing the decimal rendering of an integer up to its closing `e`
recovers the integer. -/
theorem parseIntBody_intToChars (n : Int) (rest : List Char) :
    parseIntBody (intToChars n ++ 'e' :: rest) = some (n, rest) := by
  by_cases hn : n < 0
  · have hshape : intToChars n ++ 'e' :: rest =
        '-' :: (natToChars n.natAbs ++ 'e' :: rest) := by
      simp [intToChars, hn]
    rw [hshape]
    show (match parseDigits (natToChars n.natAbs ++ 'e' :: rest) with
      | some (m, 'e' :: r) => some (-(m : Int), r)
      | _ => none) = some (n, rest)
    rw [parseDigits_natToChars n.natAbs 'e' (by decide) rest]
    have habs : -((n.natAbs : Int)) = n := by omega
    show some (-((n.natAbs : Int)), rest) = some (n, rest)
    rw [habs]
  · obtain ⟨ds, hmap, hne, hlt, _⟩ := natToChars_eq_map n.toNat
    have hshape : intToChars n ++ 'e' :: rest =
        natToChars n.toNat ++ 'e' :: rest := by
      simp [intToChars, hn]
    rw [hshape]
    match ds, hne, hmap, hlt with
    | d :: ds', _, hmap, hlt =>
      have hd : d < 10 := hlt d (by simp)
      have hdash : Nat.digitChar d ≠ '-' := (digitChar_not_reserved d hd).2.2.2.1
      rw [hmap]
      simp only [List.map_cons, List.cons_append]
      rw [parseIntBody.eq_def]
      split
      · next heq =>
        exact absurd heq (by simp [hdash])
      · next cs heq =>
        rw [← List.cons_append, ← List.map_cons, ← hmap,
          parseDigits_natToChars n.toNat 'e' (by decide) rest]
        have hton : ((n.toNat : Int)) = n := by omega
        show some (((n.toNat : Int)), rest) = some (n, rest)
        rw [hton]

/-- C10 witness: on a request whose received-from list already holds an entry,
the option replaces it with exactly the new two-element list. -/
theorem claim_C10_received_from_replaced_witness :
    exampleReq.paramsOptStringArray = some exampleArr ∧
      SetReceivedFrom "IP6" "2001:db8::1" exampleReq = .ok ({ exampleReq with
        paramsOptStringArray := some ({ exampleArr with
          ReceivedFrom := ["IP6", "2001:db8::1"] }) }) :=
  ⟨rfl, claim_C10_received_from_replaced exampleReq exampleArr rfl "IP6" "2001:db8::1"⟩


theorem parseB_succ_int (fuel : Nat) (cs : List Char) :
    parseB (fuel + 1) ('i' :: cs) =
      (parseIntBody cs).map (fun p => (BValue.int p.1, p.2)) := rfl

theorem parseB_succ_lst (fuel : Nat) (cs : List Char) :
    parseB (fuel + 1) ('l' :: cs) =
      (parseItems fuel cs).map (fun p => (BValue.lst p.1, p.2)) := rfl

theorem parseB_succ_dict (fuel : Nat) (cs : List Char) :
    parseB (fuel + 1) ('d' :: cs) =
      (parsePairs fuel cs).map (fun p => (BValue.dict p.1, p.2)) := rfl

theorem parseB_succ_str (fuel : Nat) (c : Char) (cs : List Char)
    (h1 : c ≠ 'i') (h2 : c ≠ 'l') (h3 : c ≠ 'd') :
    parseB (fuel + 1) (c :: cs) =
      (parseStr (c :: cs)).map (fun p => (BValue.str p.1, p.2)) := by
  rw [parseB.eq_def]
  simp [h1, h2, h3]

theorem parseItems_succ_e (fuel : Nat) (rest : List Char) :
    parseItems (fuel + 1) ('e' :: rest) = some ([], rest) := rfl

theorem parseItems_succ_ne (fuel : Nat) (c : Char) (cs : List Char) (h : c ≠ 'e') :
    parseItems (fuel + 1) (c :: cs) =
      match parseB fuel (c :: cs) with
      | some (v, rest) =>
        match parseItems fuel rest with
        | some (vs, rest') => some (v :: vs, rest')
        | none => none
      | none => none := by
  rw [parseItems.eq_def]
  split
  · next heq => exact absurd heq (by simp)
  · next heq => exact absurd heq (by simp [h])
  · next a b f heq hne =>
    have hf : f = fuel := by omega
    subst hf
    rfl

theorem parsePairs_succ_e (fuel : Nat) (rest : List Char) :
    parsePairs (fuel + 1) ('e' :: rest) = some ([], rest) := rfl

theorem parsePairs_succ_ne (fuel : Nat) (c : Char) (cs : List Char) (h : c ≠ 'e') :
    parsePairs (fuel + 1) (c :: cs) =
      match parseStr (c :: cs) with
      | some (k, rest) =>
        match parseB fuel rest with
        | some (v, rest') =>
          match parsePairs fuel rest' with
          | some (kvs, rest'') => some ((k, v) :: kvs, rest'')
          | none => none
        | none => none
      | none => none := by
  rw [parsePairs.eq_def]
  split
  · next heq => exact absurd heq (by simp)
  · next heq => exact absurd heq (by simp [h])
  · next a b f heq hne =>
    have hf : f = fuel := by omega
    subst hf
    rfl

/-- The digit-string framing is nonempty and starts with a digit character. -/
theorem renderStr_shape (s : String) :
    ∃ (d : Nat) (cs : List Char), d < 10 ∧
      renderStr s = Nat.digitChar d :: cs := by
  obtain ⟨ds, hmap, hne, hlt, _⟩ := natToChars_eq_map s.length
  match ds, hne, hmap, hlt with
  | d :: ds', _, hmap, hlt =>
    exact ⟨d, List.map Nat.digitChar ds' ++ ':' :: s.data, hlt d (by simp),
      by simp [renderStr, hmap]⟩

/-- Every rendered value is nonempty and does not start with the list/dict
terminator. -/
theorem render_shape (v : BValue) :
    ∃ (c : Char) (cs : List Char), render v = c :: cs ∧ c ≠ 'e' := by
  cases v with
  | str s =>
    obtain ⟨d, cs, hd, hshape⟩ := renderStr_shape s
    exact ⟨Nat.digitChar d, cs, by simp [render, hshape],
      (digitChar_not_reserved d hd).2.2.2.2.1⟩
  | int n => exact ⟨'i', intToChars n ++ ['e'], by simp [render], by decide⟩
  | lst xs => exact ⟨'l', renderItems xs ++ ['e'], by simp [render], by decide⟩
  | dict kvs => exact ⟨'d', renderPairs kvs ++ ['e'], by simp [render], by decide⟩

/-- Rendered values are nonempty. -/
theorem render_length_pos (v : BValue) : 1 ≤ (render v).length := by
  obtain ⟨c, cs, hshape, _⟩ := render_shape v
  simp [hshape]

/-- The string framing is nonempty. -/
theorem renderStr_length_pos (s : String) : 1 ≤ (renderStr s).length := by
  obtain ⟨d, cs, _, hshape⟩ := renderStr_shape s
  simp [hshape]


/-- The fueled parser inverts the renderer: one value, a list body, and a
dictionary body are all recovered exactly, leaving the remainder intact, for
any sufficient fuel. -/
theorem parse_render_conj (fuel : Nat) :
    (∀ (v : BValue) (rest : List Char), (render v).length ≤ fuel →
      parseB fuel (render v ++ rest) = some (v, rest)) ∧
    (∀ (xs : List BValue) (rest : List Char), (renderItems xs).length + 1 ≤ fuel →
      parseItems fuel (renderItems xs ++ 'e' :: rest) = some (xs, rest)) ∧
    (∀ (kvs : List (String × BValue)) (rest : List Char),
      (renderPairs kvs).length + 1 ≤ fuel →
      parsePairs fuel (renderPairs kvs ++ 'e' :: rest) = some (kvs, rest)) := by
  induction fuel with
  | zero =>
    refine ⟨fun v rest h => ?_, fun xs rest h => by omega, fun kvs rest h => by omega⟩
    have := render_length_pos v
    omega
  | succ f ih =>
    obtain ⟨ihP, ihQ, ihR⟩ := ih
    refine ⟨?_, ?_, ?_⟩
    · intro v rest h
      cases v with
      | str s =>
        obtain ⟨d, cs, hd, hshape⟩ := renderStr_shape s
        have hres := digitChar_not_reserved d hd
        have hsh2 : render (.str s) = Nat.digitChar d :: cs := by
          simp [render, hshape]
        rw [hsh2, List.cons_append,
          parseB_succ_str f (Nat.digitChar d) (cs ++ rest) hres.1 hres.2.1 hres.2.2.1,
          ← List.cons_append, ← hsh2]
        have hrs : render (.str s) = renderStr s := rfl
        rw [hrs, parseStr_renderStr s rest]
        rfl
      | int n =>
        have hsh : render (.int n) ++ rest = 'i' :: (intToChars n ++ 'e' :: rest) := by
          simp [render]
        rw [hsh, parseB_succ_int, parseIntBody_intToChars n rest]
        rfl
      | lst xs =>
        have hsh : render (.lst xs) ++ rest = 'l' :: (renderItems xs ++ 'e' :: rest) := by
          simp [render]
        have hlen : (render (.lst xs)).length = (renderItems xs).length + 2 := by
          simp [render]
        rw [hsh, parseB_succ_lst, ihQ xs rest (by omega)]
        rfl
      | dict kvs =>
        have hsh : render (.dict kvs) ++ rest = 'd' :: (renderPairs kvs ++ 'e' :: rest) := by
          simp [render]
        have hlen : (render (.dict kvs)).length = (renderPairs kvs).length + 2 := by
          simp [render]
        rw [hsh, parseB_succ_dict, ihR kvs rest (by omega)]
        rfl
    · intro xs rest h
      cases xs with
      | nil => exact parseItems_succ_e f rest
      | cons v vs =>
        obtain ⟨c, cs, hshape, hce⟩ := render_shape v
        have hlen : (renderItems (v :: vs)).length =
            (render v).length + (renderItems vs).length := by
          simp [renderItems]
        have hrv := render_length_pos v
        have harr : renderItems (v :: vs) ++ 'e' :: rest =
            c :: (cs ++ (renderItems vs ++ 'e' :: rest)) := by
          simp [renderItems, hshape]
        rw [harr, parseItems_succ_ne f c _ hce]
        have hback : c :: (cs ++ (renderItems vs ++ 'e' :: rest)) =
            render v ++ (renderItems vs ++ 'e' :: rest) := by
          simp [hshape]
        rw [hback, ihP v _ (by omega)]
        simp only [ihQ vs rest (by omega)]
    · intro kvs rest h
      cases kvs with
      | nil => exact parsePairs_succ_e f rest
      | cons kv kvs =>
        obtain ⟨k, v⟩ := kv
        obtain ⟨d, cs, hd, hkshape⟩ := renderStr_shape k
        have hce := (digitChar_not_reserved d hd).2.2.2.2.1
        have hplen : (renderPairs ((k, v) :: kvs)).length =
            (renderStr k).length + (render v).length + (renderPairs kvs).length := by
          simp [renderPairs]
          omega
        have hk := renderStr_length_pos k
        have hv := render_length_pos v
        have harr : renderPairs ((k, v) :: kvs) ++ 'e' :: rest =
            Nat.digitChar d :: (cs ++ (render v ++ (renderPairs kvs ++ 'e' :: rest))) := by
          simp [renderPairs, hkshape]
        rw [harr, parsePairs_succ_ne f _ _ hce]
        have hback : Nat.digitChar d ::
              (cs ++ (render v ++ (renderPairs kvs ++ 'e' :: rest))) =
            renderStr k ++ (render v ++ (renderPairs kvs ++ 'e' :: rest)) := by
          simp [hkshape]
        rw [hback, parseStr_renderStr k _]
        simp only [ihP v _ (by omega), ihR kvs rest (by omega)]

/-- `AsDict` recovers exactly the dictionary that was rendered. -/
theorem AsDict_render (kvs : List (String × BValue)) :
    AsDict (render (.dict kvs)) = some kvs := by
  unfold AsDict
  have h := (parse_render_conj ((render (.dict kvs)).length + 1)).1 (.dict kvs) []
    (by omega)
  rw [List.append_nil] at h
  rw [h]


/-! ## Lookup lemmas over the encoded dictionary -/

/-- Association lookup distributes over append. -/
theorem lookupKey_append (k : String) (a b : List (String × BValue)) :
    lookupKey k (a ++ b) = orOpt (lookupKey k a) (lookupKey k b) := by
  induction a with
  | nil => simp [lookupKey, orOpt]
  | cons kv a ih =>
    obtain ⟨k', v⟩ := kv
    by_cases hk : k' = k
    · simp [lookupKey, hk, orOpt]
    · simp [lookupKey, hk, ih]

/-- `orOpt` with an absent first candidate. -/
theorem orOpt_none (b : Option BValue) : orOpt none b = b := rfl

/-- `orOpt` with a present first candidate. -/
theorem orOpt_some (v : BValue) (b : Option BValue) : orOpt (some v) b = some v := rfl

/-- `orOpt` over a conditionally present candidate. -/
theorem orOpt_ite (c : Prop) [Decidable c] (v : BValue) (b : Option BValue) :
    orOpt (if c then some v else none) b = if c then some v else b := by
  split <;> rfl

/-- `orOpt` over a conditionally absent candidate. -/
theorem orOpt_ite' (c : Prop) [Decidable c] (v : BValue) (b : Option BValue) :
    orOpt (if c then none else some v) b = if c then b else some v := by
  split <;> rfl

/-- Lookup in a single `omitempty` string field. -/
theorem lookupKey_strField (k k' v : String) :
    lookupKey k (strField k' v) =
      if k' = k ∧ ¬ v = "" then some (.str v) else none := by
  unfold strField
  by_cases hv : v = "" <;> by_cases hk : k' = k <;> simp [lookupKey, hv, hk]

/-- Lookup in a single `omitempty` integer field. -/
theorem lookupKey_intField (k k' : String) (n : Int) :
    lookupKey k (intField k' n) =
      if k' = k ∧ ¬ n = 0 then some (.int n) else none := by
  unfold intField
  by_cases hn : n = 0 <;> by_cases hk : k' = k <;> simp [lookupKey, hn, hk]

/-- Lookup in a single `omitempty` string-list field. -/
theorem lookupKey_strListField (k k' : String) (vs : List String) :
    lookupKey k (strListField k' vs) =
      if k' = k ∧ ¬ vs = [] then some (.lst (vs.map (fun s => .str s))) else none := by
  unfold strListField
  by_cases hv : vs = [] <;> by_cases hk : k' = k <;> simp [lookupKey, hv, hk]

/-- Lookup in a single `omitempty` list-of-lists field. -/
theorem lookupKey_strListListField (k k' : String) (vs : List (List String)) :
    lookupKey k (strListListField k' vs) =
      if k' = k ∧ ¬ vs = [] then
        some (.lst (vs.map (fun l => .lst (l.map (fun s => .str s))))) else none := by
  unfold strListListField
  by_cases hv : vs = [] <;> by_cases hk : k' = k <;> simp [lookupKey, hv, hk]

/-- Lookup in the `moh` field. -/
theorem lookupKey_mohField (k : String) (ms : List ParamMoh) :
    lookupKey k (mohField ms) =
      if "moh" = k ∧ ¬ ms = [] then
        some (.lst (ms.map (fun m => .dict (mohDict m)))) else none := by
  unfold mohField
  by_cases hm : ms = [] <;> by_cases hk : ("moh" : String) = k <;> simp [lookupKey, hm, hk]

/-- The `sdp-attr` field never matches a different key. -/
theorem lookupKey_sdpAttrField_ne (k : String) (h : ¬ ("sdp-attr" : String) = k)
    (o : Option ParamsSdpAttrSections) :
    lookupKey k (sdpAttrField o) = none := by
  unfold sdpAttrField
  cases o <;> simp [lookupKey, h]

/-- A populated request's dictionary is the `command` key followed by the
flattened aggregates. -/
theorem requestToDict_eq_fullRequestFields (r : RequestRtp) (ps : ParamsOptString)
    (pint : ParamsOptInt) (pa : ParamsOptStringArray)
    (h1 : r.paramsOptString = some ps) (h2 : r.paramsOptInt = some pint)
    (h3 : r.paramsOptStringArray = some pa) :
    requestToDict r = fullRequestFields r.Command ps pint pa := by
  simp [requestToDict, fullRequestFields, h1, h2, h3]

/-- The request dictionary never carries the response key "result". -/
theorem lookup_full_result (cmd : String) (ps : ParamsOptString) (pint : ParamsOptInt)
    (pa : ParamsOptStringArray) :
    lookupKey "result" (fullRequestFields cmd ps pint pa) = none := by
  rw [fullRequestFields, lookupKey]
  rw [if_neg (by decide)]
  simp +decide [paramsOptStringFields, paramsOptIntFields, paramsOptStringArrayFields,
    lookupKey_append, lookupKey_strField, lookupKey_intField, lookupKey_strListField,
    lookupKey_strListListField, lookupKey_mohField, lookupKey_sdpAttrField_ne,
    orOpt_ite, orOpt_ite', orOpt_none, orOpt_some]

/-- The request dictionary never carries the response key "error-reason". -/
theorem lookup_full_error_reason (cmd : String) (ps : ParamsOptString) (pint : ParamsOptInt)
    (pa : ParamsOptStringArray) :
    lookupKey "error-reason" (fullRequestFields cmd ps pint pa) = none := by
  rw [fullRequestFields, lookupKey]
  rw [if_neg (by decide)]
  simp +decide [paramsOptStringFields, paramsOptIntFields, paramsOptStringArrayFields,
    lookupKey_append, lookupKey_strField, lookupKey_intField, lookupKey_strListField,
    lookupKey_strListListField, lookupKey_mohField, lookupKey_sdpAttrField_ne,
    orOpt_ite, orOpt_ite', orOpt_none, orOpt_some]

/-- The request dictionary never carries the response key "warning". -/
theorem lookup_full_warning (cmd : String) (ps : ParamsOptString) (pint : ParamsOptInt)
    (pa : ParamsOptStringArray) :
    lookupKey "warning" (fullRequestFields cmd ps pint pa) = none := by
  rw [fullRequestFields, lookupKey]
  rw [if_neg (by decide)]
  simp +decide [paramsOptStringFields, paramsOptIntFields, paramsOptStringArrayFields,
    lookupKey_append, lookupKey_strField, lookupKey_intField, lookupKey_strListField,
    lookupKey_strListListField, lookupKey_mohField, lookupKey_sdpAttrField_ne,
    orOpt_ite, orOpt_ite', orOpt_none, orOpt_some]

/-- The request dictionary never carries the response key "created". -/
theorem lookup_full_created (cmd : String) (ps : ParamsOptString) (pint : ParamsOptInt)
    (pa : ParamsOptStringArray) :
    lookupKey "created" (fullRequestFields cmd ps pint pa) = none := by
  rw [fullRequestFields, lookupKey]
  rw [if_neg (by decide)]
  simp +decide [paramsOptStringFields, paramsOptIntFields, paramsOptStringArrayFields,
    lookupKey_append, lookupKey_strField, lookupKey_intField, lookupKey_strListField,
    lookupKey_strListListField, lookupKey_mohField, lookupKey_sdpAttrField_ne,
    orOpt_ite, orOpt_ite', orOpt_none, orOpt_some]

/-- The request dictionary never carries the response key "created_us". -/
theorem lookup_full_created_us (cmd : String) (ps : ParamsOptString) (pint : ParamsOptInt)
    (pa : ParamsOptStringArray) :
    lookupKey "created_us" (fullRequestFields cmd ps pint pa) = none := by
  rw [fullRequestFields, lookupKey]
  rw [if_neg (by decide)]
  simp +decide [paramsOptStringFields, paramsOptIntFields, paramsOptStringArrayFields,
    lookupKey_append, lookupKey_strField, lookupKey_intField, lookupKey_strListField,
    lookupKey_strListListField, lookupKey_mohField, lookupKey_sdpAttrField_ne,
    orOpt_ite, orOpt_ite', orOpt_none, orOpt_some]

/-- The request dictionary never carries the response key "last signal". -/
theorem lookup_full_last_signal (cmd : String) (ps : ParamsOptString) (pint : ParamsOptInt)
    (pa : ParamsOptStringArray) :
    lookupKey "last signal" (fullRequestFields cmd ps pint pa) = none := by
  rw [fullRequestFields, lookupKey]
  rw [if_neg (by decide)]
  simp +decide [paramsOptStringFields, paramsOptIntFields, paramsOptStringArrayFields,
    lookupKey_append, lookupKey_strField, lookupKey_intField, lookupKey_strListField,
    lookupKey_strListListField, lookupKey_mohField, lookupKey_sdpAttrField_ne,
    orOpt_ite, orOpt_ite', orOpt_none, orOpt_some]

/-- The request dictionary never carries the response key "last redis update". -/
theorem lookup_full_last_redis (cmd : String) (ps : ParamsOptString) (pint : ParamsOptInt)
    (pa : ParamsOptStringArray) :
    lookupKey "last redis update" (fullRequestFields cmd ps pint pa) = none := by
  rw [fullRequestFields, lookupKey]
  rw [if_neg (by decide)]
  simp +decide [paramsOptStringFields, paramsOptIntFields, paramsOptStringArrayFields,
    lookupKey_append, lookupKey_strField, lookupKey_intField, lookupKey_strListField,
    lookupKey_strListListField, lookupKey_mohField, lookupKey_sdpAttrField_ne,
    orOpt_ite, orOpt_ite', orOpt_none, orOpt_some]

/-- The request dictionary never carries the response key "SSRC". -/
theorem lookup_full_SSRC (cmd : String) (ps : ParamsOptString) (pint : ParamsOptInt)
    (pa : ParamsOptStringArray) :
    lookupKey "SSRC" (fullRequestFields cmd ps pint pa) = none := by
  rw [fullRequestFields, lookupKey]
  rw [if_neg (by decide)]
  simp +decide [paramsOptStringFields, paramsOptIntFields, paramsOptStringArrayFields,
    lookupKey_append, lookupKey_strField, lookupKey_intField, lookupKey_strListField,
    lookupKey_strListListField, lookupKey_mohField, lookupKey_sdpAttrField_ne,
    orOpt_ite, orOpt_ite', orOpt_none, orOpt_some]

/-- The request dictionary never carries the response key "tags". -/
theorem lookup_full_tags (cmd : String) (ps : ParamsOptString) (pint : ParamsOptInt)
    (pa : ParamsOptStringArray) :
    lookupKey "tags" (fullRequestFields cmd ps pint pa) = none := by
  rw [fullRequestFields, lookupKey]
  rw [if_neg (by decide)]
  simp +decide [paramsOptStringFields, paramsOptIntFields, paramsOptStringArrayFields,
    lookupKey_append, lookupKey_strField, lookupKey_intField, lookupKey_strListField,
    lookupKey_strListListField, lookupKey_mohField, lookupKey_sdpAttrField_ne,
    orOpt_ite, orOpt_ite', orOpt_none, orOpt_some]

/-- The request dictionary never carries the response key "totals". -/
theorem lookup_full_totals (cmd : String) (ps : ParamsOptString) (pint : ParamsOptInt)
    (pa : ParamsOptStringArray) :
    lookupKey "totals" (fullRequestFields cmd ps pint pa) = none := by
  rw [fullRequestFields, lookupKey]
  rw [if_neg (by decide)]
  simp +decide [paramsOptStringFields, paramsOptIntFields, paramsOptStringArrayFields,
    lookupKey_append, lookupKey_strField, lookupKey_intField, lookupKey_strListField,
    lookupKey_strListListField, lookupKey_mohField, lookupKey_sdpAttrField_ne,
    orOpt_ite, orOpt_ite', orOpt_none, orOpt_some]

/-- The "sdp" key of the request dictionary holds the corresponding string
option when present. -/
theorem lookup_full_sdp (cmd : String) (ps : ParamsOptString) (pint : ParamsOptInt)
    (pa : ParamsOptStringArray) :
    lookupKey "sdp" (fullRequestFields cmd ps pint pa) =
      if ps.Sdp = "" then none else some (.str ps.Sdp) := by
  rw [fullRequestFields, lookupKey]
  rw [if_neg (by decide)]
  simp +decide [paramsOptStringFields, paramsOptIntFields, paramsOptStringArrayFields,
    lookupKey_append, lookupKey_strField, lookupKey_intField, lookupKey_strListField,
    lookupKey_strListListField, lookupKey_mohField, lookupKey_sdpAttrField_ne,
    orOpt_ite, orOpt_ite', orOpt_none, orOpt_some]

/-- The "from-tag" key of the request dictionary holds the corresponding string
option when present. -/
theorem lookup_full_from_tag (cmd : String) (ps : ParamsOptString) (pint : ParamsOptInt)
    (pa : ParamsOptStringArray) :
    lookupKey "from-tag" (fullRequestFields cmd ps pint pa) =
      if ps.FromTag = "" then none else some (.str ps.FromTag) := by
  rw [fullRequestFields, lookupKey]
  rw [if_neg (by decide)]
  simp +decide [paramsOptStringFields, paramsOptIntFields, paramsOptStringArrayFields,
    lookupKey_append, lookupKey_strField, lookupKey_intField, lookupKey_strListField,
    lookupKey_strListListField, lookupKey_mohField, lookupKey_sdpAttrField_ne,
    orOpt_ite, orOpt_ite', orOpt_none, orOpt_some]

/-- The "to-tag" key of the request dictionary holds the corresponding string
option when present. -/
theorem lookup_full_to_tag (cmd : String) (ps : ParamsOptString) (pint : ParamsOptInt)
    (pa : ParamsOptStringArray) :
    lookupKey "to-tag" (fullRequestFields cmd ps pint pa) =
      if ps.ToTag = "" then none else some (.str ps.ToTag) := by
  rw [fullRequestFields, lookupKey]
  rw [if_neg (by decide)]
  simp +decide [paramsOptStringFields, paramsOptIntFields, paramsOptStringArrayFields,
    lookupKey_append, lookupKey_strField, lookupKey_intField, lookupKey_strListField,
    lookupKey_strListListField, lookupKey_mohField, lookupKey_sdpAttrField_ne,
    orOpt_ite, orOpt_ite', orOpt_none, orOpt_some]

/-- The "from-tags" key of the request dictionary holds the string list only
when it is nonempty. -/
theorem lookup_full_from_tags (cmd : String) (ps : ParamsOptString) (pint : ParamsOptInt)
    (pa : ParamsOptStringArray) :
    lookupKey "from-tags" (fullRequestFields cmd ps pint pa) =
      if pa.FromTags = [] then none
      else some (.lst (pa.FromTags.map (fun s => .str s))) := by
  rw [fullRequestFields, lookupKey]
  rw [if_neg (by decide)]
  simp +decide [paramsOptStringFields, paramsOptIntFields, paramsOptStringArrayFields,
    lookupKey_append, lookupKey_strField, lookupKey_intField, lookupKey_strListField,
    lookupKey_strListListField, lookupKey_mohField, lookupKey_sdpAttrField_ne,
    orOpt_ite, orOpt_ite', orOpt_none, orOpt_some]

/-- The "TOS" key of the request dictionary holds the integer option only
when it is non-zero. -/
theorem lookup_full_TOS (cmd : String) (ps : ParamsOptString) (pint : ParamsOptInt)
    (pa : ParamsOptStringArray) :
    lookupKey "TOS" (fullRequestFields cmd ps pint pa) =
      if pint.TOS = 0 then none else some (.int pint.TOS) := by
  rw [fullRequestFields, lookupKey]
  rw [if_neg (by decide)]
  simp +decide [paramsOptStringFields, paramsOptIntFields, paramsOptStringArrayFields,
    lookupKey_append, lookupKey_strField, lookupKey_intField, lookupKey_strListField,
    lookupKey_strListListField, lookupKey_mohField, lookupKey_sdpAttrField_ne,
    orOpt_ite, orOpt_ite', orOpt_none, orOpt_some]

/-- The "delete-delay" key of the request dictionary holds the integer option only
when it is non-zero. -/
theorem lookup_full_delete_delay (cmd : String) (ps : ParamsOptString) (pint : ParamsOptInt)
    (pa : ParamsOptStringArray) :
    lookupKey "delete-delay" (fullRequestFields cmd ps pint pa) =
      if pint.DeleteDelay = 0 then none else some (.int pint.DeleteDelay) := by
  rw [fullRequestFields, lookupKey]
  rw [if_neg (by decide)]
  simp +decide [paramsOptStringFields, paramsOptIntFields, paramsOptStringArrayFields,
    lookupKey_append, lookupKey_strField, lookupKey_intField, lookupKey_strListField,
    lookupKey_strListListField, lookupKey_mohField, lookupKey_sdpAttrField_ne,
    orOpt_ite, orOpt_ite', orOpt_none, orOpt_some]

/-- The "ptime" key of the request dictionary holds the integer option only
when it is non-zero. -/
theorem lookup_full_ptime (cmd : String) (ps : ParamsOptString) (pint : ParamsOptInt)
    (pa : ParamsOptStringArray) :
    lookupKey "ptime" (fullRequestFields cmd ps pint pa) =
      if pint.Ptime = 0 then none else some (.int pint.Ptime) := by
  rw [fullRequestFields, lookupKey]
  rw [if_neg (by decide)]
  simp +decide [paramsOptStringFields, paramsOptIntFields, paramsOptStringArrayFields,
    lookupKey_append, lookupKey_strField, lookupKey_intField, lookupKey_strListField,
    lookupKey_strListListField, lookupKey_mohField, lookupKey_sdpAttrField_ne,
    orOpt_ite, orOpt_ite', orOpt_none, orOpt_some]

/-- The "ptime-reverse" key of the request dictionary holds the integer option only
when it is non-zero. -/
theorem lookup_full_ptime_reverse (cmd : String) (ps : ParamsOptString) (pint : ParamsOptInt)
    (pa : ParamsOptStringArray) :
    lookupKey "ptime-reverse" (fullRequestFields cmd ps pint pa) =
      if pint.PtimeReverse = 0 then none else some (.int pint.PtimeReverse) := by
  rw [fullRequestFields, lookupKey]
  rw [if_neg (by decide)]
  simp +decide [paramsOptStringFields, paramsOptIntFields, paramsOptStringArrayFields,
    lookupKey_append, lookupKey_strField, lookupKey_intField, lookupKey_strListField,
    lookupKey_strListListField, lookupKey_mohField, lookupKey_sdpAttrField_ne,
    orOpt_ite, orOpt_ite', orOpt_none, orOpt_some]

/-- The "duration" key of the request dictionary holds the integer option only
when it is non-zero. -/
theorem lookup_full_duration (cmd : String) (ps : ParamsOptString) (pint : ParamsOptInt)
    (pa : ParamsOptStringArray) :
    lookupKey "duration" (fullRequestFields cmd ps pint pa) =
      if pint.Duration = 0 then none else some (.int pint.Duration) := by
  rw [fullRequestFields, lookupKey]
  rw [if_neg (by decide)]
  simp +decide [paramsOptStringFields, paramsOptIntFields, paramsOptStringArrayFields,
    lookupKey_append, lookupKey_strField, lookupKey_intField, lookupKey_strListField,
    lookupKey_strListListField, lookupKey_mohField, lookupKey_sdpAttrField_ne,
    orOpt_ite, orOpt_ite', orOpt_none, orOpt_some]

/-- Mapping the wire dictionary of a fully populated request through the
response decoder keeps exactly the keys that have a response counterpart
(sdp, from-tag, to-tag, from-tags) and drops every other encoded field. -/
theorem mapToResponse_fullRequestFields (cmd : String) (ps : ParamsOptString)
    (pint : ParamsOptInt) (pa : ParamsOptStringArray) :
    mapToResponse (fullRequestFields cmd ps pint pa) =
      { Sdp := ps.Sdp, FromTag := ps.FromTag, ToTag := ps.ToTag,
        FromTags := pa.FromTags } := by
  unfold mapToResponse getStr getInt getStrList getTotals
  rw [lookup_full_result, lookup_full_sdp, lookup_full_error_reason, lookup_full_warning,
    lookup_full_created, lookup_full_created_us, lookup_full_last_signal,
    lookup_full_last_redis, lookup_full_SSRC, lookup_full_tags, lookup_full_from_tag,
    lookup_full_from_tags, lookup_full_to_tag, lookup_full_totals]
  by_cases hsdp : ps.Sdp = "" <;> by_cases hft : ps.FromTag = "" <;>
    by_cases htt : ps.ToTag = "" <;> by_cases hfts : pa.FromTags = [] <;>
    simp [hsdp, hft, htt, hfts, List.map_map, Function.comp_def, List.map_id']

/-- Encoding prepends the cookie and a space to the rendered dictionary. -/
theorem EncodeComando_eq (cookie : String) (r : RequestRtp) :
    EncodeComando cookie r = cookie.data ++ ' ' :: render (.dict (requestToDict r)) := by
  unfold EncodeComando
  simp [String.data_append]

/-- The decode of an encode of a fully populated request, for any space-free
cookie: only the sdp, from-tag, to-tag and from-tags fields survive. -/
theorem DecodeResposta_EncodeComando (cookie : String) (r : RequestRtp)
    (ps : ParamsOptString) (pint : ParamsOptInt) (pa : ParamsOptStringArray)
    (hc : ' ' ∉ cookie.data) (h1 : r.paramsOptString = some ps)
    (h2 : r.paramsOptInt = some pint) (h3 : r.paramsOptStringArray = some pa) :
    DecodeResposta cookie (EncodeComando cookie r) =
      { Sdp := ps.Sdp, FromTag := ps.FromTag, ToTag := ps.ToTag,
        FromTags := pa.FromTags } := by
  rw [EncodeComando_eq, DecodeResposta_valid_frame cookie _ hc, AsDict_render]
  show mapToResponse (requestToDict r) = _
  rw [requestToDict_eq_fullRequestFields r ps pint pa h1 h2 h3,
    mapToResponse_fullRequestFields]




/-! ## Claim C4 (corrected) -/

/-- C4 counterexample: the wire dictionaries of a plain offer and a plain
delete request both carry the `command` field that `EncodeComando` chose to
include — with the distinct values "offer" and "delete" — yet decoding their
encodings produces identical responses, so the decode cannot reproduce every
encoded field (the response model has no command field to receive it). -/
theorem claim_C4_counterexample :
    lookupKey "command" (requestToDict plainOffer) = some (.str Offer) ∧
      lookupKey "command" (requestToDict plainDelete) = some (.str Delete) ∧
      DecodeResposta "c1" (EncodeComando "c1" plainOffer) =
        DecodeResposta "c1" (EncodeComando "c1" plainDelete) := by
  refine ⟨rfl, rfl, ?_⟩
  rw [DecodeResposta_EncodeComando "c1" plainOffer {} {} {} (by decide) rfl rfl rfl,
    DecodeResposta_EncodeComando "c1" plainDelete {} {} {} (by decide) rfl rfl rfl]

/-- C4 (amended): for every request built from the parameter model (all three
aggregates populated) and every space-free cookie, decoding the encoding
reproduces exactly those encoded fields that have a counterpart in the
response model — sdp, from-tag, to-tag and the from-tags list, the latter
with its ordering preserved — while the command and all other encoded
parameters are dropped and every remaining response field is left at its zero
value. -/
theorem claim_C4_roundtrip (cookie : String) (r : RequestRtp)
    (ps : ParamsOptString) (pint : ParamsOptInt) (pa : ParamsOptStringArray)
    (hc : ' ' ∉ cookie.data) (h1 : r.paramsOptString = some ps)
    (h2 : r.paramsOptInt = some pint) (h3 : r.paramsOptStringArray = some pa) :
    DecodeResposta cookie (EncodeComando cookie r) =
      { Sdp := ps.Sdp, FromTag := ps.FromTag, ToTag := ps.ToTag,
        FromTags := pa.FromTags } :=
  DecodeResposta_EncodeComando cookie r ps pint pa hc h1 h2 h3

/-- C4 witness: the amended round-trip at a concrete populated request and
cookie "c1". -/
theorem claim_C4_roundtrip_witness :
    ' ' ∉ ("c1" : String).data ∧
      exampleReq.paramsOptString = some exampleParams ∧
      exampleReq.paramsOptStringArray = some exampleArr ∧
      DecodeResposta "c1" (EncodeComando "c1" exampleReq) =
        { Sdp := exampleParams.Sdp, FromTag := exampleParams.FromTag,
          ToTag := exampleParams.ToTag, FromTags := exampleArr.FromTags } :=
  ⟨by decide, rfl, rfl,
    claim_C4_roundtrip "c1" exampleReq exampleParams { Ptime := 20 } exampleArr
      (by decide) rfl rfl rfl⟩

/-! ## Claim C9 (corrected) -/

/-- C9 counterexample: a request whose integer aggregate explicitly sets TOS
to zero encodes to a wire dictionary with no "TOS" key at all, while its
non-zero ptime is present — the explicitly present zero is not distinguishable
from an absent field, contradicting the claim that the dictionary still
contains the field with value 0. -/
theorem claim_C9_counterexample :
    zeroTOSReq.paramsOptInt = some ({ TOS := 0, Ptime := 20 }) ∧
      lookupKey "TOS" (requestToDict zeroTOSReq) = none ∧
      lookupKey "ptime" (requestToDict zeroTOSReq) = some (.int 20) := by
  have h := requestToDict_eq_fullRequestFields zeroTOSReq {} ({ TOS := 0, Ptime := 20 })
    {} rfl rfl rfl
  refine ⟨rfl, ?_, ?_⟩
  · rw [h, lookup_full_TOS]
    simp
  · rw [h, lookup_full_ptime]
    simp

/-- C9 (amended): for every request built from the parameter model, each
integer-valued option named by the claim (TOS, delete-delay, ptime,
ptime-reverse, duration) is present in the encoded wire dictionary exactly
when its value is non-zero: an explicitly set zero is omitted, so an explicit
zero is indistinguishable from an absent field. -/
theorem claim_C9_zero_int_omitted (r : RequestRtp) (ps : ParamsOptString)
    (pint : ParamsOptInt) (pa : ParamsOptStringArray)
    (h1 : r.paramsOptString = some ps) (h2 : r.paramsOptInt = some pint)
    (h3 : r.paramsOptStringArray = some pa) :
    lookupKey "TOS" (requestToDict r) =
      (if pint.TOS = 0 then none else some (.int pint.TOS)) ∧
    lookupKey "delete-delay" (requestToDict r) =
      (if pint.DeleteDelay = 0 then none else some (.int pint.DeleteDelay)) ∧
    lookupKey "ptime" (requestToDict r) =
      (if pint.Ptime = 0 then none else some (.int pint.Ptime)) ∧
    lookupKey "ptime-reverse" (requestToDict r) =
      (if pint.PtimeReverse = 0 then none else some (.int pint.PtimeReverse)) ∧
    lookupKey "duration" (requestToDict r) =
      (if pint.Duration = 0 then none else some (.int pint.Duration)) := by
  have h := requestToDict_eq_fullRequestFields r ps pint pa h1 h2 h3
  exact ⟨by rw [h, lookup_full_TOS], by rw [h, lookup_full_delete_delay],
    by rw [h, lookup_full_ptime], by rw [h, lookup_full_ptime_reverse],
    by rw [h, lookup_full_duration]⟩

/-- C9 witness: the amended statement at the request whose TOS is explicitly
zero and whose ptime is 20. -/
theorem claim_C9_zero_int_omitted_witness :
    zeroTOSReq.paramsOptInt = some ({ TOS := 0, Ptime := 20 }) ∧
      lookupKey "TOS" (requestToDict zeroTOSReq) =
        (if (0 : Int) = 0 then none else some (.int 0)) ∧
      lookupKey "ptime" (requestToDict zeroTOSReq) =
        (if (20 : Int) = 0 then none else some (.int 20)) :=
  ⟨rfl,
    (claim_C9_zero_int_omitted zeroTOSReq {} ({ TOS := 0, Ptime := 20 }) {}
      rfl rfl rfl).1,
    (claim_C9_zero_int_omitted zeroTOSReq {} ({ TOS := 0, Ptime := 20 }) {}
      rfl rfl rfl).2.2.1⟩

end Rtpengine
